import Mathlib

/-!
Verification development for the tritonserver-rs request/response/memory layer.

The definitions below are a shallow embedding of the Rust sources:
  * src/error.rs      — `ErrorCode`, `Error`
  * src/memory.rs     — `DataType`, `MemoryType`, `Buffer` and its operations
  * src/request.rs    — `Shape`, `Request` input handling
  * src/request/infer.rs and src/request/utils.rs — inference entry point,
    response future, canceller, input release
  * src/allocator.rs  — native alloc/release callback bridge
  * src/response.rs   — response construction (error path)

Machine memory is modelled as lists of bytes (`List UInt8`); raw pointers are
replaced by the byte contents they point at; fallible Rust functions return
`Except Error _`; functions that can panic return `Option _` (with `none`
standing for the panic).  Native (Triton C library) calls are represented by
an explicit trace of `NativeCall` values so that statements of the form
"no native call is issued" can be expressed.
-/

/-- Triton server error codes (src/error.rs, `ErrorCode`).  The last variant
keeps the spelling of the source. -/
inductive ErrorCode where
  | Unknown
  | Internal
  | NotFound
  | InvalidArg
  | Unavailable
  | Unsupported
  | Alreadyxists
deriving DecidableEq, Repr

/-- Triton server error (src/error.rs, `Error`): an error code together with a
message, which is what `Error::new(code, message)` stores behind its native
pointer. -/
structure Error where
  code : ErrorCode
  message : String
deriving DecidableEq, Repr

/-- Tensor data types recognized by TRITONSERVER (src/memory.rs, `DataType`). -/
inductive DataType where
  | Invalid
  | Bool
  | Uint8
  | Uint16
  | Uint32
  | Uint64
  | Int8
  | Int16
  | Int32
  | Int64
  | Fp16
  | Fp32
  | Fp64
  | Bytes
  | Bf16
deriving DecidableEq, Repr

/-- Byte size of a Triton datatype (src/memory.rs `DataType::size`, backed by
`TRITONSERVER_DataTypeByteSize`).  Zero is returned for `Bytes` because it has
variable size, and for `Invalid`. -/
def DataType.size : DataType → Nat
  | .Invalid => 0
  | .Bool => 1
  | .Uint8 => 1
  | .Uint16 => 2
  | .Uint32 => 4
  | .Uint64 => 8
  | .Int8 => 1
  | .Int16 => 2
  | .Int32 => 4
  | .Int64 => 8
  | .Fp16 => 2
  | .Fp32 => 4
  | .Fp64 => 8
  | .Bytes => 0
  | .Bf16 => 2

/-- Types of memory recognized by TRITONSERVER (src/memory.rs, `MemoryType`). -/
inductive MemoryType where
  | Cpu
  | Pinned
  | Gpu
deriving DecidableEq, Repr

/-- A Rust `Sample` type (src/memory.rs trait `Sample`): its Triton datatype
tag together with `size_of::<T>()`, the Rust in-memory size used by
`Buffer::from` and `copy_from_slice`. -/
structure SampleTy where
  dataType : DataType
  size : Nat
deriving DecidableEq, Repr

/-- `impl Sample for bool`. -/
def sampleBool : SampleTy := ⟨DataType.Bool, 1⟩

/-- `impl Sample for u8`. -/
def sampleUint8 : SampleTy := ⟨DataType.Uint8, 1⟩

/-- `impl Sample for u32`. -/
def sampleUint32 : SampleTy := ⟨DataType.Uint32, 4⟩

/-- `impl Sample for u64`. -/
def sampleUint64 : SampleTy := ⟨DataType.Uint64, 8⟩

/-- `impl Sample for f32`. -/
def sampleFp32 : SampleTy := ⟨DataType.Fp32, 4⟩

/-- Data storing buffer (src/memory.rs, `Buffer`).  The raw allocation behind
`ptr` is modelled by `data`, the list of bytes it points at; `len` is the byte
size field. -/
structure Buffer where
  data : List UInt8
  len : Nat
  data_type : DataType
  memory_type : MemoryType
  owned : Bool
deriving DecidableEq, Repr

/-- The allocation of a well-formed buffer holds exactly `len` bytes. -/
def Buffer.wf (b : Buffer) : Prop := b.data.length = b.len

/-- `Buffer::from::<T>(slice)` (src/memory.rs): allocates
`slice.len() * size_of::<T>()` bytes on the CPU, copies the slice in, and
records the byte size in `len`.  `enc` gives the byte encoding of one sample
(`T.size` bytes per element). -/
def Buffer.fromSlice {α : Type} (T : SampleTy) (enc : α → List UInt8)
    (slice : List α) : Buffer :=
  { data := (slice.map enc).flatten
    len := slice.length * T.size
    data_type := T.dataType
    memory_type := MemoryType.Cpu
    owned := true }

/-- `impl AsRef for Buffer` (src/memory.rs).  Returns `none` where the
source panics (datatype tag mismatch).  On a Gpu buffer the source returns the
empty slice.  Otherwise the source calls
`slice::from_raw_parts(self.ptr as *const T, self.len)`, producing a slice of
`self.len` elements of `T`, i.e. spanning `self.len * size_of::<T>()` bytes
starting at the allocation; the result records that element count and the
in-bounds bytes the slice covers (bytes past the allocation are out of
bounds). -/
def Buffer.as_ref (b : Buffer) (T : SampleTy) : Option (Nat × List UInt8) :=
  if T.dataType ≠ b.data_type then
    none
  else if b.memory_type = MemoryType.Gpu then
    some (0, [])
  else
    some (b.len, b.data.take (b.len * T.size))

/-- `impl AsMut for Buffer` (src/memory.rs): same checks and same
`from_raw_parts_mut(self.ptr as *mut T, self.len)` length as `as_ref`. -/
def Buffer.as_mut (b : Buffer) (T : SampleTy) : Option (Nat × List UInt8) :=
  if T.dataType ≠ b.data_type then
    none
  else if b.memory_type = MemoryType.Gpu then
    some (0, [])
  else
    some (b.len, b.data.take (b.len * T.size))

/-- `Error::wrong_type` (src/error.rs, compiled without the gpu feature). -/
def wrongTypeError (mem : MemoryType) : Error :=
  ⟨ErrorCode.InvalidArg, "Got " ++ reprStr mem ++ " with gpu feature disabled"⟩

/-- `Buffer::check_mem_type_feature` (src/memory.rs): without the gpu feature
every non-Cpu buffer is rejected with `Error::wrong_type`. -/
def Buffer.check_mem_type_feature (gpuFeature : Bool) (b : Buffer) :
    Except Error Unit :=
  if gpuFeature = false ∧ b.memory_type ≠ MemoryType.Cpu then
    Except.error (wrongTypeError b.memory_type)
  else
    Except.ok ()

/-- The error built by `Buffer::copy_from_slice` on a size mismatch
(src/memory.rs line 350): code `Internal`, message naming the required size
and the buffer length. -/
def sizeMismatchError (required bufLen : Nat) : Error :=
  ⟨ErrorCode.Internal,
    "copy_from_slice error: size mismatch! required " ++ toString required ++
      " buffer len " ++ toString bufLen⟩

/-- `Buffer::copy_from_slice(offset, source)` (src/memory.rs).  `source` is a
slice of samples of type `T`, whose total byte size is
`source.len() * size_of::<T>()`.  After `check_mem_type_feature`, the source
errors when `self.len < byte_size + offset`; otherwise it copies the
`byte_size` source bytes over the bytes `[offset, offset + byte_size)` of the
allocation (memcpy for host memory, `cuMemcpyHtoD` for device memory — the
byte-level effect is the same). -/
def Buffer.copy_from_slice {α : Type} (gpuFeature : Bool) (b : Buffer)
    (offset : Nat) (T : SampleTy) (enc : α → List UInt8) (source : List α) :
    Except Error Buffer :=
  match b.check_mem_type_feature gpuFeature with
  | Except.error e => Except.error e
  | Except.ok _ =>
    let byte_size := source.length * T.size
    if b.len < byte_size + offset then
      Except.error (sizeMismatchError (byte_size + offset) b.len)
    else
      Except.ok { b with
        data := b.data.take offset ++ (source.map enc).flatten ++
          b.data.drop (offset + byte_size) }

/-- `true` exactly on the `error` branch of an `Except`. -/
def exceptIsErr {ε α : Type} : Except ε α → Bool
  | Except.error _ => true
  | Except.ok _ => false

/-- Model input/output tensor description (src/message.rs, `Shape`): name,
datatype and dimensions, as declared by the model metadata. -/
structure Shape where
  name : String
  datatype : DataType
  dims : List Int
deriving DecidableEq, Repr

/-- A call into the native Triton C library made through the request pointer
or the server pointer.  `Request::infer_async` and the input-adding path are
stated over the trace of these calls. -/
inductive NativeCall where
  | addInput (name : String) (datatype : DataType) (dims : List Int)
  | appendInputData (name : String) (bytes : List UInt8) (policy : Option String)
  | addRequestedOutput (name : String)
  | setReleaseCallback
  | responseAllocatorNew
  | setResponseCallback
  | serverInferAsync
deriving DecidableEq, Repr

/-- Inference request object (src/request.rs, `Request`).  The native handle
is replaced by the trace of native calls issued through it
(`native_calls`); the model metadata that `self.server.get_model` would
return is carried in `model_inputs` / `model_outputs`. -/
structure Request where
  model_name : String
  model_inputs : List Shape
  model_outputs : List Shape
  input : List (String × Buffer)
  custom_allocator : Bool
  native_calls : List NativeCall
deriving Repr

/-- `Request::get_shape` (src/request.rs lines 414-429): looks the name up
among the declared inputs of the model and fails with an `Internal` error when it
is absent. -/
def Request.get_shape (r : Request) (source : String) : Except Error Shape :=
  match r.model_inputs.find? (fun shape => shape.name = source) with
  | none =>
    Except.error ⟨ErrorCode.Internal,
      "Model " ++ r.model_name ++ " has no input named: " ++ source⟩
  | some shape => Except.ok shape

/-- Positive-dimension product used by `assert_buffer_shape`
(src/request.rs line 614): `dims.iter().filter(|n| **n > 0).product::<i64>()`
cast `as u32` (hence the reduction modulo `2 ^ 32`) and multiplied by the
datatype byte size. -/
def shapeMinSize (shape : Shape) : Nat :=
  (((shape.dims.filter (fun n => 0 < n)).prod).toNat % 2 ^ 32) *
    shape.datatype.size

/-- `assert_buffer_shape` (src/request.rs lines 598-629): the buffer datatype
must equal the model-declared datatype and the buffer byte size must be at
least the shape minimum size; both failures are `InvalidArg`. -/
def assert_buffer_shape (shape : Shape) (buffer : Buffer) (source : String) :
    Except Error Unit :=
  if shape.datatype ≠ buffer.data_type then
    Except.error ⟨ErrorCode.InvalidArg,
      "input buffer datatype missmatches model shape datatype. input name: " ++
        source⟩
  else if shapeMinSize shape > buffer.len then
    Except.error ⟨ErrorCode.InvalidArg,
      "Buffer has size that less than shape min size. input name: " ++ source⟩
  else
    Except.ok ()

/-- `true` when the request input map already holds a buffer for `name`
(`self.input.contains_key`). -/
def Request.hasInput (r : Request) (name : String) : Bool :=
  (r.input.find? (fun p => p.1 = name)).isSome

/-- `Request::add_input_inner` (src/request.rs lines 364-412).  Returns the
request state after the call together with the result of the call: a duplicate
name fails with `Alreadyxists` before anything else happens; then the model
shape is looked up (`get_shape`), the buffer is validated
(`assert_buffer_shape`), and only then the native registrations
(`TRITONSERVER_InferenceRequestAddInput`, then `AppendInputData` or
`AppendInputDataWithHostPolicy`) are issued and the buffer inserted into the
input map. -/
def Request.add_input_inner (r : Request) (input_name : String)
    (buffer : Buffer) (policy : Option String) (dims : Option (List Int)) :
    Request × Except Error Unit :=
  if r.hasInput input_name then
    (r, Except.error ⟨ErrorCode.Alreadyxists,
      "Request already has buffer for input " ++ input_name⟩)
  else
    match r.get_shape input_name with
    | Except.error e => (r, Except.error e)
    | Except.ok model_shape =>
      let shape : Shape :=
        match dims with
        | some ds => ⟨input_name, model_shape.datatype, ds⟩
        | none => ⟨input_name, model_shape.datatype, model_shape.dims⟩
      match assert_buffer_shape shape buffer input_name with
      | Except.error e => (r, Except.error e)
      | Except.ok _ =>
        ({ r with
            native_calls := r.native_calls ++
              [NativeCall.addInput input_name shape.datatype shape.dims,
               NativeCall.appendInputData input_name buffer.data policy]
            input := r.input ++ [(input_name, buffer)] },
          Except.ok ())

/-- `Request::add_input` (src/request.rs line 299): `add_input_inner` with no
policy and no dims override. -/
def Request.add_input (r : Request) (input_name : String) (buffer : Buffer) :
    Request × Except Error Unit :=
  r.add_input_inner input_name buffer none none

/-- `Request::infer_async` (src/request/infer.rs lines 62-159), up to the
hand-off to the native engine.  Returns the inference start result together
with the native calls issued by the function.  The two precondition checks
(`input.is_empty()`, `custom_allocator.is_none()`) run before any native
call; afterwards the source registers every model output
(`add_outputs`), installs the release callback, builds the native response
allocator, installs the response callback and finally calls
`TRITONSERVER_ServerInferAsync`.  Native-call outcomes past the checks are
irrelevant to the claims stated below, so the trace records the successful
sequence. -/
def Request.infer_async (r : Request) : Except Error Unit × List NativeCall :=
  if r.input.isEmpty then
    (Except.error ⟨ErrorCode.NotFound, "Request output buffer is not set"⟩, [])
  else if r.custom_allocator = false then
    (Except.error ⟨ErrorCode.NotFound,
      "Request output buffers allocator is not set"⟩, [])
  else
    (Except.ok (),
      (r.model_outputs.map (fun o => NativeCall.addRequestedOutput o.name)) ++
        [NativeCall.setReleaseCallback, NativeCall.responseAllocatorNew,
         NativeCall.setResponseCallback, NativeCall.serverInferAsync])

/-- The state a `RequestCanceller` observes when it is dropped
(src/request/utils.rs).  The declaration of the struct itself sits next to
`ResponseFuture` in the sources; its fields are read off its impls in
src/request/utils.rs: `is_inferenced` is the atomic flag that
`ResponseFuture::poll` and `blocking_recv` set once the response channel
yields, and `is_cancelled` is the result of the native
`TRITONSERVER_InferenceRequestIsCancelled` query on the request handle. -/
structure RequestCanceller where
  is_inferenced : Bool
  is_cancelled : Except Error Bool
deriving Repr

/-- `Result::unwrap_or` specialised to the native query of the canceller. -/
def unwrapOr (d : Bool) : Except Error Bool → Bool
  | Except.ok b => b
  | Except.error _ => d

/-- Number of `TRITONSERVER_InferenceRequestCancel` calls issued by
`impl Drop for RequestCanceller` (src/request/utils.rs lines 91-99):
one call when the inference has not been observed complete and the native
engine does not already report the request cancelled (a failing query counts
as cancelled via `unwrap_or(true)`), zero otherwise.  Rust runs `drop` once
per value, so this is the total number of cancellation calls. -/
def RequestCanceller.cancelCallsOnDrop (c : RequestCanceller) : Nat :=
  if c.is_inferenced = false ∧ unwrapOr true c.is_cancelled = false then 1
  else 0

/-- Effect of `ResponseFuture::poll` (src/request/utils.rs lines 11-42) on the
canceller: when the receiver is ready (the inference completed), the
`is_inferenced` flag is stored `true`. -/
def RequestCanceller.afterPoll (c : RequestCanceller) (ready : Bool) :
    RequestCanceller :=
  if ready then { c with is_inferenced := true } else c

/-- A tokio oneshot receiver: either its sender is still alive and will
eventually send `v`, or the sender was dropped, in which case receiving
yields a channel-closed error. -/
inductive OneshotRx (α : Type) where
  | pending (v : α)
  | senderDropped
deriving DecidableEq, Repr

/-- What awaiting a oneshot receiver eventually returns. -/
def OneshotRx.recvResult {α : Type} : OneshotRx α → Except String α
  | .pending v => Except.ok v
  | .senderDropped => Except.error "channel closed"

/-- `impl Future for InputRelease` (src/request/utils.rs lines 105-120): the
receive error is converted into an `Internal` error; a received map is passed
through. -/
def InputRelease.resolve (rx : OneshotRx (List (String × Buffer))) :
    Except Error (List (String × Buffer)) :=
  match rx.recvResult with
  | Except.ok m => Except.ok m
  | Except.error msg =>
    Except.error ⟨ErrorCode.Internal, "Receive input buffer error: " ++ msg⟩

/-- The part of `ResponseFuture` state relevant to `get_input_release`:
the `input_release: Option<InputRelease>` field. -/
structure ResponseFutureState where
  input_release : Option (OneshotRx (List (String × Buffer)))
deriving DecidableEq, Repr

/-- `ResponseFuture::get_input_release` (src/request/utils.rs lines 72-79):
`self.input_release.take()`, and when the option is already empty a fresh
oneshot channel is created whose sender is dropped on the spot, so the
sender of the returned receiver is gone. -/
def ResponseFutureState.get_input_release (f : ResponseFutureState) :
    OneshotRx (List (String × Buffer)) × ResponseFutureState :=
  match f.input_release with
  | some rx => (rx, { f with input_release := none })
  | none => (OneshotRx.senderDropped, f)

/-- Outcome of the native `alloc` callback (src/allocator.rs): a fatal abort
(`assert!` failure or explicit panic), an error pointer returned to the
engine, or a successful hand-off of the buffer supplied by the user. -/
inductive AllocOutcome where
  | fatal (msg : String)
  | errorPtr (e : Error)
  | ok (buf : Buffer) (actual_memory_type : MemoryType)
deriving DecidableEq, Repr

/-- Validation half of the native `alloc` callback (src/allocator.rs lines
166-198), applied to the result of the user allocator: an allocator error is
propagated through the error-pointer convention; a buffer smaller than the
requested `byte_size` trips the `assert!`; a Cpu-for-Gpu or Gpu-for-Cpu
location mismatch panics; anything else (including Pinned substituted for
either side) is handed to the engine with the actual memory type of the buffer. -/
def allocCallback (requested : MemoryType) (byte_size : Nat)
    (allocation_result : Except Error Buffer) : AllocOutcome :=
  match allocation_result with
  | Except.error err => AllocOutcome.errorPtr err
  | Except.ok users_buffer =>
    if users_buffer.len < byte_size then
      AllocOutcome.fatal "User allocate smaller buffer than required"
    else
      match requested, users_buffer.memory_type with
      | MemoryType.Cpu, MemoryType.Gpu =>
        AllocOutcome.fatal
          "Triton requested to alloc CPU memory while user provided GPU buffer"
      | MemoryType.Gpu, MemoryType.Cpu =>
        AllocOutcome.fatal
          "Triton requested to alloc GPU memory while user provided CPU buffer"
      | _, _ => AllocOutcome.ok users_buffer users_buffer.memory_type

/-- `true` exactly on the `fatal` outcome. -/
def AllocOutcome.isFatal : AllocOutcome → Bool
  | .fatal _ => true
  | _ => false

/-- One invocation of the native `release` callback (src/allocator.rs lines
212-252): it reconstructs the stashed buffer for `name` and inserts it back
into the returned-buffer map, incrementing the released-buffer counter. -/
structure ReleaseEvent where
  name : String
  buf : Buffer
deriving DecidableEq, Repr

/-- `HashMap::insert` on the association-list model of the returned-buffer
map: replace the binding when the key is present, append it otherwise. -/
def insertBuf : List (String × Buffer) → String → Buffer →
    List (String × Buffer)
  | [], k, v => [(k, v)]
  | p :: rest, k, v =>
    if p.1 = k then (k, v) :: rest else p :: insertBuf rest k v

/-- Key membership in the association-list map. -/
def hasKey : List (String × Buffer) → String → Bool
  | [], _ => false
  | p :: rest, k => if p.1 = k then true else hasKey rest k

/-- Returned-buffer map after a sequence of `release` callbacks. -/
def releasedMap (releases : List ReleaseEvent) : List (String × Buffer) :=
  releases.foldl (fun m ev => insertBuf m ev.name ev.buf) []

/-- Inference result error (src/request/infer.rs, `InferenceError`). -/
structure InferenceErrorModel where
  error : Error
  output_buffers : List (String × Buffer)
deriving DecidableEq, Repr

/-- Error path of `Response::new` (src/response.rs lines 97-130).  Arguments:
the native-reported error, the `alloc_called` flag, `buffers_count` (the
number of registered outputs passed in from `infer_async`), and the complete
sequence of `release` callbacks the native engine ever drives for this
request (the released-buffer counter equals its length once the engine is
done).  When an allocation occurred, the source spins until the counter
reaches `buffers_count`; if the releases driven by the engine stop short of that the spin
never terminates, which the model renders as `none`.  Otherwise the
returned-buffer map is drained into the `InferenceError`. -/
def responseNewErrorPath (err : Error) (alloc_called : Bool)
    (buffers_count : Nat) (releases : List ReleaseEvent) :
    Option InferenceErrorModel :=
  if alloc_called = true ∧ releases.length < buffers_count then
    none
  else
    some ⟨err, releasedMap releases⟩

/-! Concrete fixtures used to instantiate the theorems below. -/

/-- Byte encoding of a `u8` sample (identity). -/
def encU8 : UInt8 → List UInt8 := fun a => [a]

/-- Little-endian byte encoding of a `u32` sample, the layout `memcpy` copies
on the target platform. -/
def encU32 : UInt32 → List UInt8 := fun a =>
  [(a.toNat % 256 : Nat).toUInt8, ((a.toNat / 256) % 256 : Nat).toUInt8,
    ((a.toNat / 65536) % 256 : Nat).toUInt8,
    ((a.toNat / 16777216) % 256 : Nat).toUInt8]

/-- A native-engine-reported inference error. -/
def demoErr : Error := ⟨ErrorCode.Internal, "model failed"⟩

/-- A one-byte host output buffer. -/
def demoBuf : Buffer := ⟨[0], 1, DataType.Fp32, MemoryType.Cpu, true⟩

/-- A zeroed four-byte host buffer of `u8` samples. -/
def b4 : Buffer := ⟨[0, 0, 0, 0], 4, DataType.Uint8, MemoryType.Cpu, true⟩

/-- A model input declaration: name `IN`, two `u8` samples. -/
def shIN : Shape := ⟨"IN", DataType.Uint8, [2]⟩

/-- A freshly created request against a model with input `IN` and output
`OUT`; no inputs added, no allocator attached, no native calls issued yet. -/
def req0 : Request :=
  ⟨"m", [shIN], [⟨"OUT", DataType.Fp32, [1]⟩], [], false, []⟩

/-- A two-byte `u8` input buffer. -/
def bufIN : Buffer := ⟨[1, 2], 2, DataType.Uint8, MemoryType.Cpu, true⟩

/-- `req0` after successfully adding input `IN`. -/
def req1 : Request := (req0.add_input "IN" bufIN).1

/-- A fresh `ResponseFuture` state: the input-release receiver is present and
its sender will eventually deliver the input map. -/
def fut0 : ResponseFutureState :=
  ⟨some (OneshotRx.pending [("IN", bufIN)])⟩

/-- An eight-byte device buffer. -/
def gbuf : Buffer := ⟨[], 8, DataType.Fp32, MemoryType.Gpu, true⟩

/-- An eight-byte pinned-host buffer. -/
def pbuf : Buffer :=
  ⟨[0, 0, 0, 0, 0, 0, 0, 0], 8, DataType.Fp32, MemoryType.Pinned, true⟩

/-! Helper lemmas about the association-list map. -/

theorem hasKey_insertBuf (m : List (String × Buffer)) (k q : String)
    (v : Buffer) :
    hasKey (insertBuf m k v) q = true ↔ (hasKey m q = true ∨ k = q) := by
  induction m with
  | nil =>
    by_cases hkq : k = q <;> simp [insertBuf, hasKey, hkq]
  | cons p rest ih =>
    by_cases hpk : p.1 = k
    · by_cases hkq : k = q <;> simp [insertBuf, hasKey, hpk, hkq]
    · by_cases hpq : p.1 = q
      · have hqk : ¬q = k := fun h => hpk (hpq.trans h)
        simp [insertBuf, hasKey, hpk, hpq, hqk]
      · simp [insertBuf, hasKey, hpk, hpq, ih]

theorem hasKey_foldl_insert (rel : List ReleaseEvent)
    (m : List (String × Buffer)) (q : String) :
    hasKey (rel.foldl (fun acc ev => insertBuf acc ev.name ev.buf) m) q =
        true ↔
      (hasKey m q = true ∨ q ∈ rel.map ReleaseEvent.name) := by
  induction rel generalizing m with
  | nil => simp
  | cons ev rest ih =>
    simp only [List.foldl_cons, List.map_cons, List.mem_cons]
    rw [ih, hasKey_insertBuf]
    constructor
    · rintro ((hm | he) | hr)
      · exact Or.inl hm
      · exact Or.inr (Or.inl he.symm)
      · exact Or.inr (Or.inr hr)
    · rintro (hm | he | hr)
      · exact Or.inl (Or.inl hm)
      · exact Or.inl (Or.inr he.symm)
      · exact Or.inr hr

theorem hasKey_releasedMap (rel : List ReleaseEvent) (q : String) :
    hasKey (releasedMap rel) q = true ↔ q ∈ rel.map ReleaseEvent.name := by
  have h := hasKey_foldl_insert rel [] q
  simpa [releasedMap, hasKey] using h

/-- C1 (counterexample): with two registered outputs, a native error and a
release trace containing only output `A` (output `B` was never allocated),
the spin in `Response::new` never observes the released-buffer counter reach
the number of registered outputs, so no `InferenceError` is ever produced —
in particular the claimed result with `output_buffers` exactly `A` does not
arise. -/
theorem C1_incomplete_release_never_harvests :
    responseNewErrorPath demoErr true 2 [⟨"A", demoBuf⟩] = none ∧
      responseNewErrorPath demoErr true 2 [⟨"A", demoBuf⟩] ≠
        some ⟨demoErr, [("A", demoBuf)]⟩ := by
  constructor
  · rfl
  · simp [responseNewErrorPath]

/-- C1 (amended): for every inference whose native response reports an error,
whenever the error path of `Response::new` completes and yields an
`InferenceError`, the released-buffer counter had reached the number of
registered outputs (when any allocation occurred), and
`InferenceError.output_buffers` is the harvested returned-buffer map, whose
keys are exactly the outputs released by the native engine.  In the partial
scenario (`A` allocated and released, `B` not) the counter never reaches the
registered-output count, the spin does not terminate, and no
`InferenceError` is produced. -/
theorem C1_error_harvest_is_exactly_released (err : Error) (ac : Bool)
    (bc : Nat) (rel : List ReleaseEvent) (ie : InferenceErrorModel)
    (h : responseNewErrorPath err ac bc rel = some ie) :
    (ac = true → bc ≤ rel.length) ∧ ie.error = err ∧
      ie.output_buffers = releasedMap rel ∧
      ∀ k, hasKey ie.output_buffers k = true ↔
        k ∈ rel.map ReleaseEvent.name := by
  unfold responseNewErrorPath at h
  split at h
  · exact absurd h (by simp)
  · next hcond =>
    injection h with h'
    subst h'
    refine ⟨?_, rfl, rfl, fun k => hasKey_releasedMap rel k⟩
    intro hac
    by_contra hlt
    exact hcond ⟨hac, by omega⟩

/-- C1 witness: one registered output, allocated and released; the harvest
happens and returns exactly that output. -/
theorem C1_error_harvest_is_exactly_released_witness :
    (true = true → 1 ≤ ([⟨"A", demoBuf⟩] : List ReleaseEvent).length) ∧
      (InferenceErrorModel.mk demoErr [("A", demoBuf)]).error = demoErr ∧
      (InferenceErrorModel.mk demoErr [("A", demoBuf)]).output_buffers =
        releasedMap [⟨"A", demoBuf⟩] ∧
      ∀ k, hasKey (InferenceErrorModel.mk demoErr
          [("A", demoBuf)]).output_buffers k = true ↔
        k ∈ ([⟨"A", demoBuf⟩] : List ReleaseEvent).map ReleaseEvent.name :=
  C1_error_harvest_is_exactly_released demoErr true 1 [⟨"A", demoBuf⟩]
    ⟨demoErr, [("A", demoBuf)]⟩ (by rfl)

/-- C2: `infer_async` on a Request with zero inputs, or with no Allocator
attached, fails with a `NotFound` error, and in both cases the failure is
returned before any native-engine call is issued: the call trace of
`infer_async` is empty. -/
theorem C2_infer_async_precondition (r : Request)
    (h : r.input = [] ∨ r.custom_allocator = false) :
    exceptIsErr (r.infer_async).1 = true ∧
      (∀ e, (r.infer_async).1 = Except.error e →
        e.code = ErrorCode.NotFound) ∧
      (r.infer_async).2 = [] := by
  rcases h with h | h
  · simp [Request.infer_async, h, exceptIsErr]
  · by_cases hin : r.input.isEmpty
    · simp [Request.infer_async, hin, exceptIsErr]
    · simp [Request.infer_async, hin, h, exceptIsErr]

/-- C2 witness: the fresh request `req0` has no inputs and no allocator. -/
theorem C2_infer_async_precondition_witness :
    exceptIsErr (req0.infer_async).1 = true ∧
      (∀ e, (req0.infer_async).1 = Except.error e →
        e.code = ErrorCode.NotFound) ∧
      (req0.infer_async).2 = [] :=
  C2_infer_async_precondition req0 (Or.inl rfl)

/-- C3: `RequestCanceller::drop` issues exactly one native cancellation call
when the future is dropped in flight (the inference has not been observed
complete and the engine does not report the request already cancelled);
dropping after `poll` observed completion, or when the request is already
cancelled, issues none. -/
theorem C3_drop_cancellation (c : RequestCanceller) :
    (c.is_inferenced = false → unwrapOr true c.is_cancelled = false →
      c.cancelCallsOnDrop = 1) ∧
    (c.afterPoll true).cancelCallsOnDrop = 0 ∧
    (unwrapOr true c.is_cancelled = true → c.cancelCallsOnDrop = 0) := by
  refine ⟨fun h1 h2 => ?_, ?_, fun h => ?_⟩
  · simp [RequestCanceller.cancelCallsOnDrop, h1, h2]
  · simp [RequestCanceller.cancelCallsOnDrop, RequestCanceller.afterPoll]
  · simp [RequestCanceller.cancelCallsOnDrop, h]

/-- C3 witness: an in-flight canceller (not inferenced, engine reports not
cancelled) issues exactly one call; after a ready poll it issues none; a
canceller whose request the engine reports cancelled issues none. -/
theorem C3_drop_cancellation_witness :
    (RequestCanceller.mk false (Except.ok false)).cancelCallsOnDrop = 1 ∧
      ((RequestCanceller.mk false (Except.ok false)).afterPoll
        true).cancelCallsOnDrop = 0 ∧
      (RequestCanceller.mk false (Except.ok true)).cancelCallsOnDrop = 0 :=
  ⟨(C3_drop_cancellation ⟨false, Except.ok false⟩).1 rfl rfl,
    (C3_drop_cancellation ⟨false, Except.ok false⟩).2.1,
    (C3_drop_cancellation ⟨false, Except.ok true⟩).2.2 rfl⟩

/-- C4 (counterexample): on a future whose input-release receiver was already
taken, the second `get_input_release` hands back a receiver whose sender is
dropped, and that future resolves to an `Internal` receive error — not to an
empty map as the claim states. -/
theorem C4_second_call_is_error_not_empty_map :
    InputRelease.resolve
        ((fut0.get_input_release).2.get_input_release).1 =
      Except.error ⟨ErrorCode.Internal,
        "Receive input buffer error: channel closed"⟩ ∧
    InputRelease.resolve
        ((fut0.get_input_release).2.get_input_release).1 ≠
      Except.ok [] := by
  refine ⟨rfl, ?_⟩
  simp [fut0, ResponseFutureState.get_input_release, InputRelease.resolve,
    OneshotRx.recvResult]

/-- C4 (amended): for every `ResponseFuture`, calling `get_input_release()` a
second time returns a future that resolves — immediately, with neither a
panic nor a deadlock — to an `Internal` receive error, because the
sender of the replacement oneshot channel is dropped at creation. -/
theorem C4_second_get_input_release (f : ResponseFutureState) :
    ((f.get_input_release).2.get_input_release).1 =
      OneshotRx.senderDropped ∧
    InputRelease.resolve ((f.get_input_release).2.get_input_release).1 =
      Except.error ⟨ErrorCode.Internal,
        "Receive input buffer error: channel closed"⟩ := by
  cases hf : f.input_release <;>
    simp [ResponseFutureState.get_input_release, hf, InputRelease.resolve,
      OneshotRx.recvResult]

/-- C5: evaluation of the code at the failing input.  `Buffer::from` on the
`u32` slice `[1, 2, 3]` records `len = 12` (the byte size); the `AsRef`
accessor then builds its slice with `from_raw_parts(ptr, self.len)`, i.e.
12 *elements* (48 bytes, over-reading the 12-byte allocation), so the
round-trip yields a 12-element slice instead of the original 3-element
slice. -/
theorem C5_roundtrip_fails_for_multibyte_samples :
    (Buffer.fromSlice sampleUint32 encU32 [1, 2, 3]).as_ref sampleUint32 =
        some (12, [1, 0, 0, 0, 2, 0, 0, 0, 3, 0, 0, 0]) ∧
      ([1, 0, 0, 0, 2, 0, 0, 0, 3, 0, 0, 0] : List UInt8).length =
        (Buffer.fromSlice sampleUint32 encU32 [1, 2, 3]).data.length ∧
      (12 : Nat) ≠ [(1 : UInt32), 2, 3].length := by
  refine ⟨by decide, by decide, by decide⟩

/-- C6: for every host (Cpu) buffer, offset and source slice,
`copy_from_slice` fails — with the size-mismatch `Internal` error built at
src/memory.rs line 350 — if and only if
`offset + byte_length(source) > self.len`; otherwise it succeeds and the
target bytes at `[offset, offset + byte_length(source))` equal the source
bytes exactly. -/
theorem C6_copy_from_slice_spec {α : Type} (gpu : Bool) (b : Buffer)
    (offset : Nat) (T : SampleTy) (enc : α → List UInt8) (source : List α)
    (hcpu : b.memory_type = MemoryType.Cpu) (hwf : b.wf)
    (henc : ((source.map enc).flatten).length = source.length * T.size) :
    (exceptIsErr (b.copy_from_slice gpu offset T enc source) = true ↔
      offset + source.length * T.size > b.len) ∧
    (∀ e, b.copy_from_slice gpu offset T enc source = Except.error e →
      e = sizeMismatchError (source.length * T.size + offset) b.len) ∧
    (∀ r, b.copy_from_slice gpu offset T enc source = Except.ok r →
      (r.data.drop offset).take (source.length * T.size) =
        (source.map enc).flatten) := by
  have hchk : b.check_mem_type_feature gpu = Except.ok () := by
    simp [Buffer.check_mem_type_feature, hcpu]
  by_cases hsz : b.len < source.length * T.size + offset
  · refine ⟨?_, ?_, ?_⟩
    · simp [Buffer.copy_from_slice, hchk, hsz, exceptIsErr]
      omega
    · intro e he
      simp [Buffer.copy_from_slice, hchk, hsz] at he
      exact he.symm
    · intro r hr
      simp [Buffer.copy_from_slice, hchk, hsz] at hr
  · refine ⟨?_, ?_, ?_⟩
    · simp [Buffer.copy_from_slice, hchk, hsz, exceptIsErr]
      omega
    · intro e he
      simp [Buffer.copy_from_slice, hchk, hsz] at he
    · intro r hr
      simp [Buffer.copy_from_slice, hchk, hsz] at hr
      rw [← hr]
      dsimp only
      rw [List.drop_left' (by simp [Buffer.wf] at hwf; simp; omega),
        List.take_left' henc]

/-- C6 witness: copying the two bytes `[5, 6]` at offset 1 into the zeroed
four-byte Cpu buffer succeeds and places them at bytes 1 and 2. -/
theorem C6_copy_from_slice_spec_witness :
    (exceptIsErr (b4.copy_from_slice true 1 sampleUint8 encU8 [5, 6]) =
        true ↔ 1 + [(5 : UInt8), 6].length * sampleUint8.size > b4.len) ∧
    (∀ e, b4.copy_from_slice true 1 sampleUint8 encU8 [5, 6] =
        Except.error e →
      e = sizeMismatchError ([(5 : UInt8), 6].length * sampleUint8.size + 1)
        b4.len) ∧
    (∀ r, b4.copy_from_slice true 1 sampleUint8 encU8 [5, 6] =
        Except.ok r →
      (r.data.drop 1).take ([(5 : UInt8), 6].length * sampleUint8.size) =
        ([(5 : UInt8), 6].map encU8).flatten) :=
  C6_copy_from_slice_spec true b4 1 sampleUint8 encU8 [5, 6] (by rfl)
    (by simp [Buffer.wf, b4]) (by decide)

/-- C7: adding a second input under a name already attached to the Request
fails with the `AlreadyExists` error code, and the request state is left
unchanged: the input map still holds the first buffer and no native call is
added (the duplicate check in `add_input_inner` returns before the shape
lookup and before any native registration). -/
theorem C7_duplicate_input_rejected (r : Request) (name : String)
    (buffer : Buffer) (policy : Option String) (dims : Option (List Int))
    (h : r.hasInput name = true) :
    (r.add_input_inner name buffer policy dims).1 = r ∧
    (r.add_input_inner name buffer policy dims).1.input = r.input ∧
    (r.add_input_inner name buffer policy dims).1.native_calls =
      r.native_calls ∧
    (r.add_input_inner name buffer policy dims).2 =
      Except.error ⟨ErrorCode.Alreadyxists,
        "Request already has buffer for input " ++ name⟩ := by
  refine ⟨?_, ?_, ?_, ?_⟩ <;> simp [Request.add_input_inner, h]

/-- C7 witness: adding `IN` a second time to `req1` (which already holds the
first `IN` buffer) fails with `AlreadyExists` and leaves the request
unchanged. -/
theorem C7_duplicate_input_rejected_witness :
    (req1.add_input_inner "IN" bufIN none none).1 = req1 ∧
    (req1.add_input_inner "IN" bufIN none none).1.input = req1.input ∧
    (req1.add_input_inner "IN" bufIN none none).1.native_calls =
      req1.native_calls ∧
    (req1.add_input_inner "IN" bufIN none none).2 =
      Except.error ⟨ErrorCode.Alreadyxists,
        "Request already has buffer for input " ++ "IN"⟩ :=
  C7_duplicate_input_rejected req1 "IN" bufIN none none (by decide)

/-- C8: in the native alloc callback, an allocation result buffer is fatal
(process abort via `assert!` or panic) exactly when its byte length is
smaller than the requested `byte_size` or its memory location crosses the
Host/Device boundary relative to the request (Cpu requested with Gpu
returned, or Gpu requested with Cpu returned); a Pinned buffer of sufficient
size substitutes for either family without aborting. -/
theorem C8_alloc_contract_breach_is_fatal (req : MemoryType)
    (byte_size : Nat) (buf : Buffer) :
    ((allocCallback req byte_size (Except.ok buf)).isFatal = true ↔
      (buf.len < byte_size ∨
        (req = MemoryType.Cpu ∧ buf.memory_type = MemoryType.Gpu) ∨
        (req = MemoryType.Gpu ∧ buf.memory_type = MemoryType.Cpu))) ∧
    (buf.memory_type = MemoryType.Pinned → byte_size ≤ buf.len →
      allocCallback req byte_size (Except.ok buf) =
        AllocOutcome.ok buf MemoryType.Pinned) := by
  constructor
  · by_cases hlen : buf.len < byte_size
    · simp [allocCallback, hlen, AllocOutcome.isFatal]
    · cases hreq : req <;> cases hmem : buf.memory_type <;>
        simp [allocCallback, hlen, hmem, AllocOutcome.isFatal]
  · intro hmem hlen
    simp [allocCallback, Nat.not_lt.mpr hlen, hmem]

/-- C8 witness: the pinned eight-byte buffer `pbuf` satisfies a Gpu request
of eight bytes without aborting, and an undersized Cpu buffer is fatal. -/
theorem C8_alloc_contract_breach_is_fatal_witness :
    allocCallback MemoryType.Gpu 8 (Except.ok pbuf) =
        AllocOutcome.ok pbuf MemoryType.Pinned ∧
      (allocCallback MemoryType.Cpu 9 (Except.ok b4)).isFatal = true :=
  ⟨(C8_alloc_contract_breach_is_fatal MemoryType.Gpu 8 pbuf).2 rfl
      (by decide),
    (C8_alloc_contract_breach_is_fatal MemoryType.Cpu 9 b4).1.mpr
      (Or.inl (by decide))⟩

/-- C9 (counterexample): adding the input `OTHER`, which the model `m` does
not declare, fails with the `Internal` error code — not with `InvalidArg`
and not with `NotFound` as the claim states. -/
theorem C9_unknown_input_error_code_is_internal :
    (req0.add_input "OTHER" bufIN).2 =
        Except.error ⟨ErrorCode.Internal,
          "Model " ++ "m" ++ " has no input named: " ++ "OTHER"⟩ ∧
      ErrorCode.Internal ≠ ErrorCode.InvalidArg ∧
      ErrorCode.Internal ≠ ErrorCode.NotFound := by
  refine ⟨by rfl, by decide, by decide⟩

/-- C9 (amended): adding an input whose name is not among the
declared inputs of the model (and not already attached) fails with an `Internal` error
built by `Request::get_shape`, returned synchronously from the
Request-building call: the request state, including its native-call trace,
is unchanged. -/
theorem C9_unknown_input_rejected_synchronously (r : Request) (name : String)
    (buffer : Buffer) (policy : Option String) (dims : Option (List Int))
    (hdup : r.hasInput name = false)
    (hunk : r.model_inputs.find? (fun shape => shape.name = name) = none) :
    (r.add_input_inner name buffer policy dims).1 = r ∧
    (r.add_input_inner name buffer policy dims).1.native_calls =
      r.native_calls ∧
    (r.add_input_inner name buffer policy dims).2 =
      Except.error ⟨ErrorCode.Internal,
        "Model " ++ r.model_name ++ " has no input named: " ++ name⟩ := by
  refine ⟨?_, ?_, ?_⟩ <;>
    simp [Request.add_input_inner, hdup, Request.get_shape, hunk]

/-- C9 witness: the fresh request `req0` has no input `OTHER` attached and
the model does not declare it. -/
theorem C9_unknown_input_rejected_synchronously_witness :
    (req0.add_input_inner "OTHER" bufIN none none).1 = req0 ∧
    (req0.add_input_inner "OTHER" bufIN none none).1.native_calls =
      req0.native_calls ∧
    (req0.add_input_inner "OTHER" bufIN none none).2 =
      Except.error ⟨ErrorCode.Internal,
        "Model " ++ req0.model_name ++ " has no input named: " ++ "OTHER"⟩ :=
  C9_unknown_input_rejected_synchronously req0 "OTHER" bufIN none none
    (by decide) (by decide)

/-- C10: for every buffer and every sample type `T`, the typed accessors
`AsRef` and `AsMut` panic whenever the datatype of `T` differs from the
datatype tag of the buffer, and on a Gpu-located buffer they return the empty slice
instead of reading device memory. -/
theorem C10_typed_accessor_guards (b : Buffer) (T : SampleTy) :
    (T.dataType ≠ b.data_type → b.as_ref T = none ∧ b.as_mut T = none) ∧
    (T.dataType = b.data_type → b.memory_type = MemoryType.Gpu →
      b.as_ref T = some (0, []) ∧ b.as_mut T = some (0, [])) := by
  constructor
  · intro h
    simp [Buffer.as_ref, Buffer.as_mut, h]
  · intro h hg
    simp [Buffer.as_ref, Buffer.as_mut, h, hg]

/-- C10 witness: reading the `u8` buffer `bufIN` as `u32` panics; reading the
Gpu buffer `gbuf` with the matching `f32` sample type returns the empty
slice. -/
theorem C10_typed_accessor_guards_witness :
    (bufIN.as_ref sampleUint32 = none ∧ bufIN.as_mut sampleUint32 = none) ∧
      (gbuf.as_ref sampleFp32 = some (0, []) ∧
        gbuf.as_mut sampleFp32 = some (0, [])) :=
  ⟨(C10_typed_accessor_guards bufIN sampleUint32).1 (by decide),
    (C10_typed_accessor_guards gbuf sampleFp32).2 (by decide) (by decide)⟩
